import Mathlib

/-!
Verification of the news-collector orchestrator and scraper pipeline.

A shallow embedding of the repository's core logic:

* `BaseScraper` (base-scraper.ts): `scrape`, `scrapeArticles` (the page loop),
  `scrapeArticle`, `extractArticleLinks`, `extractText`, `extractPublishedDate`,
  `extractTags`, `extractImageUrl`, `hasNextPage`.
* `NewsCollector` (news-collector.ts): the constructor's option defaulting,
  `runScraperWithRetry` and `collectAll`.

The browser (puppeteer) and the HTML query engine (cheerio) are external
collaborators; they are modelled by an environment record `ScrapeEnv` of
oracles (navigation outcome per URL, date parsing, clock).  JavaScript
semantics that matter are modelled explicitly: `||`-defaulting treats `0`,
`""`, `undefined` and `null` as falsy, `if (x)` on a string is an emptiness
test, and a thrown value that is not an `Error` carries no message.
-/

/-! ## JavaScript string primitives -/

/-- Models JavaScript `String.prototype.startsWith`: a prefix test on the
character sequence. -/
def strStartsWith (s pre : String) : Bool :=
  pre.data.isPrefixOf s.data

/-- Models JavaScript `String.prototype.trim`: strip whitespace from both
ends of the character sequence. -/
def strTrim (s : String) : String :=
  ⟨((s.data.dropWhile Char.isWhitespace).reverse.dropWhile Char.isWhitespace).reverse⟩

/-! ## Data model (types.ts) -/

/-- `NewsArticle` (types.ts).  `publishedAt : Date` is modelled as a
millisecond timestamp. -/
structure NewsArticle where
  title : String
  url : String
  summary : Option String := none
  content : Option String := none
  author : Option String := none
  publishedAt : Nat
  source : String
  category : Option String := none
  tags : List String := []
  imageUrl : Option String := none
deriving Repr, DecidableEq

/-- The `selectors` field of `ScraperConfig` (types.ts). -/
structure Selectors where
  articleLinks : String
  title : String
  summary : Option String := none
  content : Option String := none
  author : Option String := none
  publishedAt : Option String := none
  category : Option String := none
  tags : Option String := none
  imageUrl : Option String := none
deriving Repr, DecidableEq

/-- The `pagination` field of `ScraperConfig` (types.ts). -/
structure Pagination where
  enabled : Bool
  nextPageSelector : Option String := none
  maxPages : Option Nat := none
deriving Repr, DecidableEq

/-- `ScraperConfig` (types.ts). -/
structure ScraperConfig where
  name : String
  baseUrl : String
  selectors : Selectors
  pagination : Option Pagination := none
  delay : Option Nat := none
deriving Repr, DecidableEq

/-- `ScraperResult` (types.ts). -/
structure ScraperResult where
  articles : List NewsArticle
  totalScraped : Nat
  errors : List String
  executionTime : Nat
deriving Repr, DecidableEq

/-- `NewsCollectorOptions` (types.ts); every field optional. -/
structure NewsCollectorOptions where
  outputDir : Option String := none
  maxConcurrent : Option Nat := none
  retryAttempts : Option Nat := none
  delayBetweenRequests : Option Nat := none
  includeContent : Option Bool := none
deriving Repr, DecidableEq

/-! ## The rendered-HTML collaborator (cheerio / puppeteer)

A rendered page is modelled as a map from a CSS selector to the list of
matching elements; an element exposes its text and its `href`/`src`
attributes, which is everything base-scraper.ts reads. -/

/-- One matched DOM element, as consumed by the extraction helpers. -/
structure Element where
  text : String := ""
  href : Option String := none
  src : Option String := none

/-- A rendered page: selector → matching elements, in document order. -/
def Html : Type := String → List Element

/-- The external world of one scraper run: browser launch outcome
(`initialize`), navigation outcome per URL (`page.goto` + `page.content`),
date parsing (`new Date(text)`), the clock.  A failure carries
`Option String`: the thrown `Error`'s message, or `none` for a thrown
non-`Error` value. -/
structure ScrapeEnv where
  init : Except (Option String) Unit
  nav : String → Except (Option String) Html
  parseDate : String → Option Nat
  now : Nat
  elapsed : Nat

/-! ## URL resolution (WHATWG `new URL(href, base).href`)

Modelled from the spec: `new URL(href, base).href` is a JavaScript builtin
(no repository code); the spec states "every Article's `url` was produced by
resolving a possibly-relative link against the owning SiteConfig's base
URL".  All site configs use an origin-shaped base URL (scheme + host, no
trailing path), for which the builtin resolves a root-relative href by
appending it to the base and any other relative href as a child of the
root. -/
def urlHref (href base : String) : String :=
  if strStartsWith href "/" then base ++ href else base ++ "/" ++ href

/-! ## BaseScraper (base-scraper.ts) -/

/-- `BaseScraper.extractText`: first match's trimmed text; `undefined` when
the selector is absent (or empty, which `if (!selector)` also treats as
missing); an empty selection yields `""` from cheerio's `.text()`. -/
def extractText (dom : Html) (selector : Option String) : Option String :=
  match selector with
  | none => none
  | some sel =>
    if sel = "" then none
    else some (strTrim (((dom sel).head?.map (fun el => el.text)).getD ""))

/-- `BaseScraper.extractArticleLinks`: every matching element's `href`
(skipping falsy ones), passed through when it starts with `"http"` and
otherwise resolved against the config's base URL. -/
def extractArticleLinks (conf : ScraperConfig) (dom : Html) : List String :=
  (dom conf.selectors.articleLinks).filterMap fun el =>
    match el.href with
    | none => none
    | some href =>
      if href = "" then none
      else some (if strStartsWith href "http" then href else urlHref href conf.baseUrl)

/-- `BaseScraper.extractPublishedDate`: parse the extracted date text,
falling back to the current time when the text is falsy or unparseable. -/
def extractPublishedDate (env : ScrapeEnv) (conf : ScraperConfig) (dom : Html) : Nat :=
  match extractText dom conf.selectors.publishedAt with
  | none => env.now
  | some dateText =>
    if dateText = "" then env.now
    else
      match env.parseDate dateText with
      | some d => d
      | none => env.now

/-- `BaseScraper.extractTags`: trimmed text of every match, dropping empty
ones; `[]` when the tags selector is falsy. -/
def extractTags (conf : ScraperConfig) (dom : Html) : List String :=
  match conf.selectors.tags with
  | none => []
  | some sel =>
    if sel = "" then []
    else
      (dom sel).filterMap fun el =>
        let tag := strTrim el.text
        if tag = "" then none else some tag

/-- `BaseScraper.extractImageUrl`: the first match's `src`, absolutized the
same way as article links; `undefined` when the selector or the `src` is
falsy. -/
def extractImageUrl (conf : ScraperConfig) (dom : Html) : Option String :=
  match conf.selectors.imageUrl with
  | none => none
  | some sel =>
    if sel = "" then none
    else
      match (dom sel).head? with
      | none => none
      | some el =>
        match el.src with
        | none => none
        | some imgSrc =>
          if imgSrc = "" then none
          else some (if strStartsWith imgSrc "http" then imgSrc
                     else urlHref imgSrc conf.baseUrl)

/-- `BaseScraper.hasNextPage`: `false` when no (or a falsy) next-page
selector is configured, otherwise whether the selector matches anything. -/
def hasNextPage (conf : ScraperConfig) (dom : Html) : Bool :=
  match conf.pagination with
  | none => false
  | some p =>
    match p.nextPageSelector with
    | none => false
    | some sel => if sel = "" then false else decide (0 < (dom sel).length)

/-- `const maxPages = this.config.pagination?.maxPages || 1` in
`BaseScraper.scrapeArticles` (`0` is falsy under `||`). -/
def maxPagesOf (conf : ScraperConfig) : Nat :=
  match conf.pagination with
  | none => 1
  | some p =>
    match p.maxPages with
    | none => 1
    | some m => if m = 0 then 1 else m

/-- `this.config.pagination?.enabled` as a boolean. -/
def paginationEnabled (conf : ScraperConfig) : Bool :=
  match conf.pagination with
  | none => false
  | some p => p.enabled

/-- `BaseScraper.scrapeArticle`: navigate to the article URL, give up
(`null`) on a navigation failure (the `try`/`catch` swallows it), skip
(`null`) when the trimmed title is empty, otherwise build the article. -/
def scrapeArticle (env : ScrapeEnv) (conf : ScraperConfig) (articleUrl : String) :
    Option NewsArticle :=
  match env.nav articleUrl with
  | .error _ => none
  | .ok dom =>
    match extractText dom (some conf.selectors.title) with
    | none => none
    | some title =>
      if title = "" then none
      else
        some
          { title := title
            url := articleUrl
            source := conf.name
            publishedAt := extractPublishedDate env conf dom
            summary := extractText dom conf.selectors.summary
            content :=
              match conf.selectors.content with
              | some c => if c = "" then none else extractText dom (some c)
              | none => none
            author := extractText dom conf.selectors.author
            category := extractText dom conf.selectors.category
            tags := extractTags conf dom
            imageUrl := extractImageUrl conf dom }

/-- The `while (currentPage <= maxPages)` loop body of
`BaseScraper.scrapeArticles`.  A listing-page navigation failure is not
caught there, so it aborts the loop and discards the accumulator (which in
the source is a local variable of this function).  A failing `scrapeArticle`
never throws past its own `catch`, so each link is processed independently.
The loop `break`s early when pagination is enabled, more pages remain and
`hasNextPage` is false.  Fuel is the number of pages still allowed. -/
def scrapePagesGo (env : ScrapeEnv) (conf : ScraperConfig) (getPageUrl : Nat → String) :
    Nat → Nat → List NewsArticle → Except (Option String) (List NewsArticle)
  | 0, _, articles => .ok articles
  | fuel + 1, currentPage, articles =>
    match env.nav (getPageUrl currentPage) with
    | .error e => .error e
    | .ok dom =>
      let articleLinks := extractArticleLinks conf dom
      let articles := articles ++ articleLinks.filterMap (scrapeArticle env conf)
      if paginationEnabled conf && decide (currentPage < maxPagesOf conf)
          && !hasNextPage conf dom then
        .ok articles
      else
        scrapePagesGo env conf getPageUrl fuel (currentPage + 1) articles

/-- `BaseScraper.scrapeArticles`: run the page loop from page 1. -/
def scrapeArticles (env : ScrapeEnv) (conf : ScraperConfig) (getPageUrl : Nat → String) :
    Except (Option String) (List NewsArticle) :=
  scrapePagesGo env conf getPageUrl (maxPagesOf conf) 1 []

/-- A concrete scraper: its config plus its per-variant `getPageUrl` rule. -/
structure SiteScraper where
  config : ScraperConfig
  getPageUrl : Nat → String

/-- `error instanceof Error ? error.message : 'Unknown error'`. -/
def fatalMessage : Option String → String
  | some m => m
  | none => "Unknown error"

/-- `BaseScraper.scrape`: initialize the browser and run the page loop; any
failure of either is caught and recorded as the single error string
`"Failed to scrape <name>: <message>"`, and the local `articles` (assigned
only when `scrapeArticles` returns) is returned — empty on any fatal
failure.  The outcome is always returned normally; `scrape` itself never
throws. -/
def scrape (env : ScrapeEnv) (s : SiteScraper) : ScraperResult :=
  match env.init with
  | .error e =>
    { articles := []
      totalScraped := 0
      errors := ["Failed to scrape " ++ s.config.name ++ ": " ++ fatalMessage e]
      executionTime := env.elapsed }
  | .ok _ =>
    match scrapeArticles env s.config s.getPageUrl with
    | .ok articles =>
      { articles := articles
        totalScraped := articles.length
        errors := []
        executionTime := env.elapsed }
    | .error e =>
      { articles := []
        totalScraped := 0
        errors := ["Failed to scrape " ++ s.config.name ++ ": " ++ fatalMessage e]
        executionTime := env.elapsed }

/-! ## Site configs (src/scrapers) -/

/-- The `BBCScraper` config (bbc-scraper.ts). -/
def bbcConfig : ScraperConfig :=
  { name := "BBC"
    baseUrl := "https://www.bbc.com"
    selectors :=
      { articleLinks := "a[data-testid=\"internal-link\"]"
        title := "h1[data-testid=\"headline\"]"
        summary := some "[data-testid=\"summary\"]"
        content := some "[data-testid=\"main-content\"]"
        author := some "[data-testid=\"byline\"]"
        publishedAt := some "time[data-testid=\"timestamp\"]"
        category := some "[data-testid=\"section\"]"
        tags := some "[data-testid=\"tags\"] a" }
    pagination := some { enabled := true, maxPages := some 3 }
    delay := some 2000 }

/-- The `BBCScraper` with its `getPageUrl` rule (bbc-scraper.ts). -/
def bbcScraper : SiteScraper :=
  { config := bbcConfig
    getPageUrl := fun pageNumber =>
      if pageNumber = 1 then "https://www.bbc.com/news"
      else "https://www.bbc.com/news?page=" ++ toString pageNumber }

/-! ## NewsCollector (news-collector.ts) -/

/-- JavaScript `x || d` defaulting for an optional number: `undefined` and
`0` are falsy. -/
def orDefaultNat (v : Option Nat) (d : Nat) : Nat :=
  match v with
  | none => d
  | some x => if x = 0 then d else x

/-- JavaScript `x || d` defaulting for an optional string: `undefined` and
`""` are falsy. -/
def orDefaultStr (v : Option String) (d : String) : String :=
  match v with
  | none => d
  | some s => if s = "" then d else s

/-- JavaScript `x || d` defaulting for an optional boolean. -/
def orDefaultBool (v : Option Bool) (d : Bool) : Bool :=
  match v with
  | none => d
  | some b => b || d

/-- `Required<NewsCollectorOptions>`: the options after the constructor's
defaulting. -/
structure ResolvedOptions where
  outputDir : String
  maxConcurrent : Nat
  retryAttempts : Nat
  delayBetweenRequests : Nat
  includeContent : Bool
deriving Repr, DecidableEq

/-- The `NewsCollector` constructor's option defaulting. -/
def resolveOptions (options : NewsCollectorOptions) : ResolvedOptions :=
  { outputDir := orDefaultStr options.outputDir "./data"
    maxConcurrent := orDefaultNat options.maxConcurrent 3
    retryAttempts := orDefaultNat options.retryAttempts 3
    delayBetweenRequests := orDefaultNat options.delayBetweenRequests 1000
    includeContent := orDefaultBool options.includeContent false }

/-! ### runScraperWithRetry -/

/-- What one `scraper.scrape()` call looks like to the retry wrapper: a
fulfilled `ScraperResult`, or a thrown value (its `Error` message, or `none`
for a thrown non-`Error`). -/
inductive AttemptResult where
  | ok (result : ScraperResult)
  | thrown (message : Option String)
deriving Repr

/-- `error instanceof Error ? error : new Error('Unknown error')`, read back
as the stored error's `.message`. -/
def caughtMessage : Option String → String
  | some m => m
  | none => "Unknown error"

/-- The outcome synthesized by `runScraperWithRetry` after the loop ends
with every attempt failed: zero articles, the single error
`lastError?.message || 'Unknown error'`, zero elapsed time.  `lastError` is
`none` when the loop never caught anything. -/
def failResult (lastError : Option String) : ScraperResult :=
  { articles := []
    totalScraped := 0
    errors :=
      [match lastError with
       | none => "Unknown error"
       | some m => if m = "" then "Unknown error" else m]
    executionTime := 0 }

/-- One retry-wrapper run: the returned outcome, how many `scrape()` calls
were made, and the backoff waits inserted between attempts, in order. -/
structure RetryRun where
  result : ScraperResult
  attempts : Nat
  delays : List Nat
deriving Repr, DecidableEq

/-- The `for (attempt = 1; attempt <= retryAttempts; attempt++)` loop of
`NewsCollector.runScraperWithRetry`, driven by the list of outcomes of the
pending attempts.  A fulfilled attempt returns its value immediately; a
thrown one stores the caught error and, when `attempt < retryAttempts`,
waits `attempt * 2000` ms before the next attempt. -/
def retryLoop (retryAttempts : Nat) :
    List AttemptResult → Nat → Option String → RetryRun
  | [], _, lastError => ⟨failResult lastError, 0, []⟩
  | .ok res :: _, _, _ => ⟨res, 1, []⟩
  | .thrown msg :: rest, attempt, _ =>
    let next := retryLoop retryAttempts rest (attempt + 1) (some (caughtMessage msg))
    if attempt < retryAttempts then
      ⟨next.result, next.attempts + 1, attempt * 2000 :: next.delays⟩
    else
      ⟨next.result, next.attempts + 1, next.delays⟩

/-- `NewsCollector.runScraperWithRetry` over a scraper whose attempt number
`i` would settle as `attempt i`. -/
def runScraperWithRetry (attempt : Nat → AttemptResult) (retryAttempts : Nat) : RetryRun :=
  retryLoop retryAttempts ((List.range' 1 retryAttempts).map attempt) 1 none

/-! ### collectAll -/

/-- One settled batch task, as `Promise.allSettled` reports it: fulfilled
with the scraper's outcome, or rejected with a reason. -/
abbrev SettledResult : Type := Except String ScraperResult

/-- The error contribution of one settled task in `collectAll`'s tally: a
fulfilled outcome adds its error count, a rejected task adds one. -/
def settledErrors : SettledResult → Nat
  | .ok r => r.errors.length
  | .error _ => 1

/-- The mutable state `collectAll` accumulates across batches:
`allArticles`, `results`, `totalErrors`, plus the inter-batch sleeps
actually performed (in order). -/
structure CollectState where
  allArticles : List NewsArticle
  results : List ScraperResult
  totalErrors : Nat
  delays : List Nat
deriving Repr, DecidableEq

/-- The `for (j = 0; j < batchResults.length; j++)` loop over one settled
batch: a fulfilled task appends its outcome and articles and adds its error
count; a rejected task only counts one error. -/
def settleBatch : CollectState → List SettledResult → CollectState
  | st, [] => st
  | st, .ok r :: rest =>
    settleBatch
      { st with
        results := st.results ++ [r]
        allArticles := st.allArticles ++ r.articles
        totalErrors := st.totalErrors + r.errors.length } rest
  | st, .error _ :: rest =>
    settleBatch { st with totalErrors := st.totalErrors + 1 } rest

/-- The `for (i = 0; i < scrapers.length; i += maxConcurrent)` loop of
`NewsCollector.collectAll`: take the next `maxConcurrent` tasks as a batch,
settle them, and sleep `delayBetweenRequests` exactly when more scrapers
remain (`i + maxConcurrent < scrapers.length`).  Fuel bounds the number of
iterations; `tasks.length` suffices whenever `maxConcurrent ≥ 1`. -/
def collectBatches (maxConcurrent delayBetweenRequests : Nat) :
    Nat → List SettledResult → CollectState → CollectState
  | 0, _, st => st
  | _, [], st => st
  | fuel + 1, t :: rest, st =>
    let batch := (t :: rest).take maxConcurrent
    let st := settleBatch st batch
    let remaining := (t :: rest).drop maxConcurrent
    let st :=
      if remaining.isEmpty then st
      else { st with delays := st.delays ++ [delayBetweenRequests] }
    collectBatches maxConcurrent delayBetweenRequests fuel remaining st

/-- The value `NewsCollector.collectAll` returns (file persistence and the
wall clock are I/O side effects outside the aggregation logic). -/
structure CollectionReport where
  allArticles : List NewsArticle
  results : List ScraperResult
  totalArticles : Nat
  totalErrors : Nat
  delays : List Nat
deriving Repr, DecidableEq

/-- `NewsCollector.collectAll` over the settled per-scraper tasks, in
declaration order.  `totalArticles` is `allArticles.length`, as in the
source. -/
def collectAll (tasks : List SettledResult) (maxConcurrent delayBetweenRequests : Nat) :
    CollectionReport :=
  let st := collectBatches maxConcurrent delayBetweenRequests tasks.length tasks
    ⟨[], [], 0, []⟩
  { allArticles := st.allArticles
    results := st.results
    totalArticles := st.allArticles.length
    totalErrors := st.totalErrors
    delays := st.delays }

/-- The batch partition `collectAll` walks: consecutive `take`/`drop`
chunks of size `maxConcurrent` (the `slice(i, i + maxConcurrent)` calls). -/
def chunksGo (c : Nat) {α : Type _} : Nat → List α → List (List α)
  | 0, _ => []
  | _, [] => []
  | fuel + 1, x :: rest => ((x :: rest).take c) :: chunksGo c fuel ((x :: rest).drop c)

/-- The list of batches of `xs` under batch size `c`. -/
def chunks (c : Nat) {α : Type _} (xs : List α) : List (List α) :=
  chunksGo c xs.length xs

/-! ## Concrete fixtures

Small closed environments, pages and configs used to evaluate the embedding
at concrete inputs. -/

/-- A page matching nothing. -/
def emptyHtml : Html := fun _ => []

/-- An environment whose browser launch fails. -/
def envInitFail : ScrapeEnv :=
  { init := .error (some "browser launch failed")
    nav := fun _ => .ok emptyHtml
    parseDate := fun _ => none
    now := 0
    elapsed := 0 }

/-- A minimal two-page test config (pagination enabled, a next-page
selector, `maxPages` 2). -/
def pagedConfig : ScraperConfig :=
  { name := "Test"
    baseUrl := "https://example.com"
    selectors := { articleLinks := "a.link", title := "h1" }
    pagination := some { enabled := true, nextPageSelector := some "a.next", maxPages := some 2 } }

/-- The test scraper over `pagedConfig`. -/
def pagedScraper : SiteScraper :=
  { config := pagedConfig
    getPageUrl := fun n => "https://example.com/list/" ++ toString n }

/-- A listing page with one relative article link and a next-page marker. -/
def listingDom : Html := fun sel =>
  if sel = "a.link" then [{ href := some "/story" }]
  else if sel = "a.next" then [{ text := "next" }]
  else []

/-- An article page with a non-empty headline. -/
def storyDom : Html := fun sel =>
  if sel = "h1" then [{ text := "A headline" }] else []

/-- An environment where listing page 1 and the story load but listing
page 2's navigation throws. -/
def envPage2Fails : ScrapeEnv :=
  { init := .ok ()
    nav := fun url =>
      if url = "https://example.com/list/1" then .ok listingDom
      else if url = "https://example.com/story" then .ok storyDom
      else .error (some "net::ERR_CONNECTION_REFUSED")
    parseDate := fun _ => none
    now := 1700000000000
    elapsed := 42 }

/-- A single-page config with no pagination entry. -/
def dupConfig : ScraperConfig :=
  { name := "Dup"
    baseUrl := "https://example.com"
    selectors := { articleLinks := "a.link", title := "h1" } }

/-- The test scraper over `dupConfig`. -/
def dupScraper : SiteScraper :=
  { config := dupConfig
    getPageUrl := fun n => "https://example.com/list/" ++ toString n }

/-- A listing page that yields the same relative link twice. -/
def dupDom : Html := fun sel =>
  if sel = "a.link" then [{ href := some "/story" }, { href := some "/story" }]
  else []

/-- An environment serving `dupDom` as page 1 and the story behind it. -/
def envDup : ScrapeEnv :=
  { init := .ok ()
    nav := fun url =>
      if url = "https://example.com/list/1" then .ok dupDom
      else if url = "https://example.com/story" then .ok storyDom
      else .error none
    parseDate := fun _ => none
    now := 5
    elapsed := 1 }

/-- A listing page with one link whose article navigation will fail and one
that will load. -/
def mixedDom : Html := fun sel =>
  if sel = "a.link" then [{ href := some "/bad" }, { href := some "/good" }]
  else []

/-- An environment where the first article link's navigation times out and
the second loads. -/
def envOneBadLink : ScrapeEnv :=
  { init := .ok ()
    nav := fun url =>
      if url = "https://example.com/list/1" then .ok mixedDom
      else if url = "https://example.com/good" then .ok storyDom
      else .error (some "timeout")
    parseDate := fun _ => none
    now := 9
    elapsed := 2 }

/-- The test scraper over `dupConfig`'s shape but named for the mixed run. -/
def mixedScraper : SiteScraper :=
  { config := { name := "Mixed"
                baseUrl := "https://example.com"
                selectors := { articleLinks := "a.link", title := "h1" } }
    getPageUrl := fun n => "https://example.com/list/" ++ toString n }

/-- A BBC listing page carrying one relative link, for evaluating link
extraction against the real config. -/
def bbcListingDom : Html := fun sel =>
  if sel = "a[data-testid=\"internal-link\"]" then [{ href := some "/news/article-1" }]
  else []

/-- An environment serving nothing but the BBC listing fixture. -/
def envBbcTest : ScrapeEnv :=
  { init := .ok ()
    nav := fun url =>
      if url = "https://www.bbc.com/news" then .ok bbcListingDom else .error none
    parseDate := fun _ => none
    now := 3
    elapsed := 0 }

/-- A sample article for the aggregation fixtures. -/
def sampleArticle : NewsArticle :=
  { title := "T", url := "https://x/y", publishedAt := 0, source := "S" }

/-- A sample fulfilled outcome for the aggregation fixtures. -/
def sampleOutcome : ScraperResult :=
  { articles := [sampleArticle], totalScraped := 1, errors := ["e"], executionTime := 5 }

/-- Four fulfilled tasks, for the batching fixture. -/
def tasks4 : List SettledResult :=
  [Except.ok sampleOutcome, Except.ok ⟨[], 0, [], 3⟩,
   Except.ok ⟨[], 0, [], 2⟩, Except.ok sampleOutcome]

/-! ## Helper lemmas -/

/-- A successful `List.isPrefixOf` test yields an append decomposition. -/
theorem isPrefixOf_exists_append (p s : List Char) (h : p.isPrefixOf s = true) :
    ∃ t, s = p ++ t := by
  have h2 : p <+: s := by
    have := ( List.isPrefixOf_iff_prefix).mp h
    exact this
  obtain ⟨t, ht⟩ := h2
  exact ⟨t, ht.symm⟩

/-- Any list is a `isPrefixOf`-prefix of itself extended. -/
theorem isPrefixOf_append_self (p t : List Char) : p.isPrefixOf (p ++ t) = true := by
  have h : p <+: p ++ t := List.prefix_append p t
  exact ( List.isPrefixOf_iff_prefix).mpr h

/-- String append acts as append on the character data. -/
theorem string_data_append (a b : String) : (a ++ b).data = a.data ++ b.data := rfl

/-- Strings with equal character data are equal. -/
theorem string_eq_of_data_eq {a b : String} (h : a.data = b.data) : a = b := by
  cases a
  cases b
  exact congrArg String.mk h

/-- A string passing the JS `startsWith` test decomposes as prefix ++ rest. -/
theorem strStartsWith_exists (s pre : String) (h : strStartsWith s pre = true) :
    ∃ t, s = pre ++ t := by
  obtain ⟨t, ht⟩ := isPrefixOf_exists_append pre.data s.data h
  refine ⟨⟨t⟩, string_eq_of_data_eq ?_⟩
  rw [string_data_append]
  exact ht

/-- Appending on the right preserves the JS `startsWith` test. -/
theorem strStartsWith_append_of (s t pre : String) (h : strStartsWith s pre = true) :
    strStartsWith (s ++ t) pre = true := by
  obtain ⟨r, hr⟩ := strStartsWith_exists s pre h
  subst hr
  show pre.data.isPrefixOf ((pre ++ r) ++ t).data = true
  have h2 : ((pre ++ r) ++ t).data = pre.data ++ (r.data ++ t.data) := by
    rw [string_data_append, string_data_append, List.append_assoc]
  rw [h2]
  exact isPrefixOf_append_self _ _

/-- Gauss-style closed form for the backoff sum. -/
theorem sum_range_map_backoff :
    ∀ t : Nat,
      (((List.range t).map (fun i => (i + 1) * 2000)).sum) = 2000 * ((List.range (t + 1)).sum)
  | 0 => by decide
  | t + 1 => by
    rw [List.range_succ, List.map_append, List.sum_append, sum_range_map_backoff t]
    rw [List.range_succ (t + 1), List.sum_append]
    simp only [List.map_cons, List.map_nil, List.sum_cons, List.sum_nil]
    have hS : ((List.range (t + 1)).sum : Nat) = (List.range (t + 1)).sum := rfl
    omega

/-- Running the retry loop over `t` failing attempts followed by a
successful one: the success is returned, `t + 1` attempts are made, and a
backoff of `(a + i) * 2000` ms is inserted after the `i`-th failure. -/
theorem retryLoop_ok :
    ∀ (t : Nat) (msgs : Nat → Option String) (res : ScraperResult)
      (rest : List AttemptResult) (a N : Nat) (le : Option String),
      a + t ≤ N →
      retryLoop N (((List.range t).map (fun i => .thrown (msgs i))) ++ .ok res :: rest) a le
        = ⟨res, t + 1, (List.range t).map (fun i => (a + i) * 2000)⟩
  | 0, msgs, res, rest, a, N, le, h => by
    simp [retryLoop]
  | t + 1, msgs, res, rest, a, N, le, h => by
    rw [List.range_succ_eq_map, List.map_cons, List.map_map, List.cons_append]
    have ha : a < N := by omega
    have hrec := retryLoop_ok t (fun i => msgs (i + 1)) res rest (a + 1) N
      (some (caughtMessage (msgs 0))) (by omega)
    have hfun : (List.range t).map ((fun i => AttemptResult.thrown (msgs i)) ∘ Nat.succ)
        = (List.range t).map (fun i => AttemptResult.thrown (msgs (i + 1))) := by
      exact List.map_congr_left (fun i _ => rfl)
    rw [retryLoop]
    rw [hfun, hrec]
    simp only [ha, if_pos]
    refine congrArg (RetryRun.mk res (t + 1 + 1)) ?_
    simp only [List.map_cons, List.map_map]
    have htail : (List.range t).map ((fun i => (a + i) * 2000) ∘ Nat.succ)
        = (List.range t).map (fun i => (a + 1 + i) * 2000) := by
      refine List.map_congr_left (fun i _ => ?_)
      simp only [Function.comp_apply]
      omega
    rw [htail]
    have hhead : (a + 0) * 2000 = a * 2000 := by omega
    rw [hhead]

/-- Running the retry loop over `t` failing attempts with none remaining,
where attempt numbers run from `a` to `N` (`a + t = N + 1`): the loop makes
all `t` attempts, inserts a backoff after each failure except the last, and
synthesizes the failure outcome from the last caught message. -/
theorem retryLoop_allfail :
    ∀ (t : Nat) (msgs : Nat → Option String) (a N : Nat) (le : Option String),
      a + t = N + 1 →
      retryLoop N ((List.range t).map (fun i => .thrown (msgs i))) a le
        = ⟨failResult (if t = 0 then le else some (caughtMessage (msgs (t - 1)))), t,
            (List.range (t - 1)).map (fun i => (a + i) * 2000)⟩
  | 0, msgs, a, N, le, h => by
    simp [retryLoop]
  | t + 1, msgs, a, N, le, h => by
    rw [List.range_succ_eq_map, List.map_cons, List.map_map]
    have hfun : (List.range t).map ((fun i => AttemptResult.thrown (msgs i)) ∘ Nat.succ)
        = (List.range t).map (fun i => AttemptResult.thrown (msgs (i + 1))) := by
      exact List.map_congr_left (fun i _ => rfl)
    have hrec := retryLoop_allfail t (fun i => msgs (i + 1)) (a + 1) N
      (some (caughtMessage (msgs 0))) (by omega)
    rw [retryLoop, hfun, hrec]
    rcases Nat.eq_zero_or_pos t with ht | ht
    · subst ht
      have ha : ¬ a < N := by omega
      rw [if_neg ha]
      rfl
    · have ha : a < N := by omega
      simp only [ha, if_pos]
      have hmsg : (if t = 0 then some (caughtMessage (msgs 0))
          else some (caughtMessage (msgs (t - 1 + 1)))) = some (caughtMessage (msgs t)) := by
        have : ¬ t = 0 := by omega
        rw [if_neg this]
        refine congrArg _ (congrArg _ (congrArg _ ?_))
        omega
      rw [hmsg]
      refine congrArg (RetryRun.mk _ (t + 1)) ?_
      have ht2 : List.range t = 0 :: (List.range (t - 1)).map Nat.succ := by
        conv_lhs => rw [show t = (t - 1) + 1 by omega]
        exact List.range_succ_eq_map (t - 1)
      simp only [Nat.add_sub_cancel]
      rw [ht2]
      simp only [List.map_cons, List.map_map]
      have htail : (List.range (t - 1)).map ((fun i => (a + i) * 2000) ∘ Nat.succ)
          = (List.range (t - 1)).map (fun i => (a + 1 + i) * 2000) := by
        refine List.map_congr_left (fun i _ => ?_)
        simp only [Function.comp_apply]
        omega
      rw [htail]
      have hhead : (a + 0) * 2000 = a * 2000 := by omega
      rw [hhead]

/-- `runScraperWithRetry` for a scraper that throws on attempts `1..k-1` and
fulfills on attempt `k ≤ retryAttempts`. -/
theorem runScraperWithRetry_eventual_success
    (N k : Nat) (attempt : Nat → AttemptResult) (msgs : Nat → Option String)
    (res : ScraperResult) (hk : 1 ≤ k) (hkN : k ≤ N)
    (hfail : ∀ i, 1 ≤ i → i < k → attempt i = .thrown (msgs i))
    (hok : attempt k = .ok res) :
    runScraperWithRetry attempt N
      = ⟨res, k, (List.range (k - 1)).map (fun i => (i + 1) * 2000)⟩ := by
  unfold runScraperWithRetry
  have hNk : N - (k - 1) = (N - k) + 1 := by omega
  have hsplit : List.range' 1 N
      = List.range' 1 (k - 1) ++ k :: List.range' (k + 1) (N - k) := by
    have h1 : List.range' 1 (k - 1) ++ List.range' (1 + (k - 1)) (N - (k - 1))
        = List.range' 1 (N - (k - 1) + (k - 1)) :=
      List.range'_append_1 1 (k - 1) (N - (k - 1))
    have h2 : N - (k - 1) + (k - 1) = N := by omega
    have h3 : (1 : Nat) + (k - 1) = k := by omega
    rw [h2, h3] at h1
    rw [← h1, hNk, List.range'_succ]
  rw [hsplit, List.map_append, List.map_cons, hok]
  have hpre : (List.range' 1 (k - 1)).map attempt
      = (List.range (k - 1)).map (fun i => .thrown (msgs (1 + i))) := by
    rw [List.range'_eq_map_range, List.map_map]
    refine List.map_congr_left (fun i hi => ?_)
    have hi2 : i < k - 1 := List.mem_range.mp hi
    simp only [Function.comp_apply]
    exact hfail (1 + i) (by omega) (by omega)
  rw [hpre]
  have hloop := retryLoop_ok (k - 1) (fun i => msgs (1 + i)) res
    ((List.range' (k + 1) (N - k)).map attempt) 1 N none (by omega)
  rw [hloop]
  have hk1 : k - 1 + 1 = k := by omega
  rw [hk1]
  refine congrArg (RetryRun.mk res k) ?_
  refine List.map_congr_left (fun i _ => ?_)
  omega

/-- `runScraperWithRetry` for a scraper that throws on every one of the
`retryAttempts` attempts. -/
theorem runScraperWithRetry_allfail
    (N : Nat) (attempt : Nat → AttemptResult) (msgs : Nat → Option String)
    (hN : 1 ≤ N) (hfail : ∀ i, 1 ≤ i → i ≤ N → attempt i = .thrown (msgs i)) :
    runScraperWithRetry attempt N
      = ⟨failResult (some (caughtMessage (msgs N))), N,
          (List.range (N - 1)).map (fun i => (i + 1) * 2000)⟩ := by
  unfold runScraperWithRetry
  have hpre : (List.range' 1 N).map attempt
      = (List.range N).map (fun i => .thrown (msgs (1 + i))) := by
    rw [List.range'_eq_map_range, List.map_map]
    refine List.map_congr_left (fun i hi => ?_)
    have hi2 : i < N := List.mem_range.mp hi
    simp only [Function.comp_apply]
    exact hfail (1 + i) (by omega) (by omega)
  rw [hpre]
  have hloop := retryLoop_allfail N (fun i => msgs (1 + i)) 1 N none (by omega)
  rw [hloop]
  have hif : (if N = 0 then (none : Option String)
      else some (caughtMessage (msgs (1 + (N - 1))))) = some (caughtMessage (msgs N)) := by
    rw [if_neg (by omega)]
    refine congrArg _ (congrArg _ (congrArg _ ?_))
    omega
  rw [hif]
  refine congrArg (RetryRun.mk _ N) ?_
  refine List.map_congr_left (fun i _ => ?_)
  omega

/-- C3: for every scraper (as seen by the retry wrapper) that fails by
exception on attempts 1..k-1 and succeeds on attempt k with
k ≤ retryAttempts, `runScraperWithRetry` returns attempt k's successful
outcome after exactly k attempts, the wait inserted before re-attempt i+1
equals i × 2000 ms (linear, not exponential), and the total backoff equals
2000 × (1 + 2 + ⋯ + (k-1)) ms. -/
theorem retry_linear_backoff_success
    (N k : Nat) (attempt : Nat → AttemptResult) (msgs : Nat → Option String)
    (res : ScraperResult) (hk : 1 ≤ k) (hkN : k ≤ N)
    (hfail : ∀ i, 1 ≤ i → i < k → attempt i = .thrown (msgs i))
    (hok : attempt k = .ok res) :
    (runScraperWithRetry attempt N).result = res ∧
    (runScraperWithRetry attempt N).attempts = k ∧
    (runScraperWithRetry attempt N).delays
      = (List.range (k - 1)).map (fun i => (i + 1) * 2000) ∧
    (runScraperWithRetry attempt N).delays.sum = 2000 * ((List.range k).sum) := by
  have h := runScraperWithRetry_eventual_success N k attempt msgs res hk hkN hfail hok
  rw [h]
  refine ⟨rfl, rfl, rfl, ?_⟩
  show (((List.range (k - 1)).map (fun i => (i + 1) * 2000)).sum) = _
  rw [sum_range_map_backoff (k - 1)]
  rw [show k - 1 + 1 = k from by omega]

/-- Witness for C3: retryAttempts 3, two failures, success on attempt 3;
total backoff 2000 × (1 + 2). -/
theorem retry_linear_backoff_success_witness :
    (1 : Nat) ≤ 3 ∧
    (runScraperWithRetry
        (fun i => if i = 3 then .ok sampleOutcome else .thrown (some "boom")) 3).delays
      = [2000, 4000] ∧
    (runScraperWithRetry
        (fun i => if i = 3 then .ok sampleOutcome else .thrown (some "boom")) 3).delays.sum
      = 2000 * ((List.range 3).sum) := by
  have h := retry_linear_backoff_success 3 3
    (fun i => if i = 3 then .ok sampleOutcome else .thrown (some "boom"))
    (fun _ => some "boom") sampleOutcome (by decide) (by decide)
    (by
      intro i h1 h2
      have hi : i = 1 ∨ i = 2 := by omega
      rcases hi with rfl | rfl <;> rfl)
    (by rfl)
  refine ⟨by decide, ?_, h.2.2.2⟩
  rw [h.2.2.1]
  decide

/-- C4: for every scraper (as seen by the retry wrapper) that fails by
exception on all of the retryAttempts = N attempts, exactly N attempts are
made (no (N+1)-th), and the synthesized outcome has no articles, exactly
one error message — the last failure's message, or the unknown-error
fallback when none is available — and zero elapsed time. -/
theorem retry_all_attempts_fail
    (N : Nat) (attempt : Nat → AttemptResult) (msgs : Nat → Option String)
    (hN : 1 ≤ N) (hfail : ∀ i, 1 ≤ i → i ≤ N → attempt i = .thrown (msgs i)) :
    (runScraperWithRetry attempt N).attempts = N ∧
    (runScraperWithRetry attempt N).result.articles = [] ∧
    (runScraperWithRetry attempt N).result.errors
      = [match msgs N with
         | some m => if m = "" then "Unknown error" else m
         | none => "Unknown error"] ∧
    (runScraperWithRetry attempt N).result.executionTime = 0 := by
  have h := runScraperWithRetry_allfail N attempt msgs hN hfail
  rw [h]
  refine ⟨rfl, rfl, ?_, rfl⟩
  show (failResult (some (caughtMessage (msgs N)))).errors = _
  cases hm : msgs N with
  | none => simp [failResult, caughtMessage]
  | some m => simp [failResult, caughtMessage]

/-- Witness for C4: retryAttempts 3, every attempt throws `"boom"`. -/
theorem retry_all_attempts_fail_witness :
    (1 : Nat) ≤ 3 ∧
    (runScraperWithRetry (fun _ => .thrown (some "boom")) 3).attempts = 3 ∧
    (runScraperWithRetry (fun _ => .thrown (some "boom")) 3).result.errors = ["boom"] := by
  have h := retry_all_attempts_fail 3 (fun _ => .thrown (some "boom"))
    (fun _ => some "boom") (by decide) (fun i h1 h2 => rfl)
  refine ⟨by decide, h.1, ?_⟩
  rw [h.2.2.1]
  decide

/-- The per-batch settling loop appends the fulfilled outcomes and their
articles in task order, adds the error tallies, and leaves delays alone. -/
theorem settleBatch_spec :
    ∀ (ys : List SettledResult) (st : CollectState),
      settleBatch st ys
        = { allArticles := st.allArticles
              ++ ((ys.filterMap Except.toOption).map (fun r => r.articles)).flatten
            results := st.results ++ ys.filterMap Except.toOption
            totalErrors := st.totalErrors + (ys.map settledErrors).sum
            delays := st.delays }
  | [], st => by simp [settleBatch]
  | .ok r :: rest, st => by
    rw [show settleBatch st (.ok r :: rest)
        = settleBatch
            { st with
              results := st.results ++ [r]
              allArticles := st.allArticles ++ r.articles
              totalErrors := st.totalErrors + r.errors.length } rest from rfl]
    rw [settleBatch_spec rest]
    simp [settledErrors, Except.toOption, List.append_assoc, Nat.add_assoc]
  | .error e :: rest, st => by
    rw [show settleBatch st (.error e :: rest)
        = settleBatch { st with totalErrors := st.totalErrors + 1 } rest from rfl]
    rw [settleBatch_spec rest]
    simp [settledErrors, Except.toOption, Nat.add_assoc]

/-- `chunksGo` does not depend on the fuel, as long as it covers the list
length. -/
theorem chunksGo_fuel_irrel (c : Nat) (hc : 1 ≤ c) {α : Type _} :
    ∀ (fuel₁ fuel₂ : Nat) (xs : List α), xs.length ≤ fuel₁ → xs.length ≤ fuel₂ →
      chunksGo c fuel₁ xs = chunksGo c fuel₂ xs
  | 0, fuel₂, xs, h1, _ => by
    have hx : xs = [] := List.length_eq_zero.mp (by omega)
    subst hx
    cases fuel₂ <;> rfl
  | fuel₁ + 1, 0, xs, _, h2 => by
    have hx : xs = [] := List.length_eq_zero.mp (by omega)
    subst hx
    rfl
  | _ + 1, _ + 1, [], _, _ => rfl
  | fuel₁ + 1, fuel₂ + 1, x :: rest, h1, h2 => by
    show ((x :: rest).take c) :: chunksGo c fuel₁ ((x :: rest).drop c)
        = ((x :: rest).take c) :: chunksGo c fuel₂ ((x :: rest).drop c)
    refine congrArg _ (chunksGo_fuel_irrel c hc fuel₁ fuel₂ ((x :: rest).drop c) ?_ ?_)
    · have hd : ((x :: rest).drop c).length = (x :: rest).length - c :=
        List.length_drop c (x :: rest)
      have hl : (x :: rest).length = rest.length + 1 := by simp
      omega
    · have hd : ((x :: rest).drop c).length = (x :: rest).length - c :=
        List.length_drop c (x :: rest)
      have hl : (x :: rest).length = rest.length + 1 := by simp
      omega

/-- Unfolding one batch of the partition. -/
theorem chunks_cons (c : Nat) (hc : 1 ≤ c) {α : Type _} (x : α) (rest : List α) :
    chunks c (x :: rest) = ((x :: rest).take c) :: chunks c ((x :: rest).drop c) := by
  show chunksGo c (rest.length + 1) (x :: rest) = _
  rw [show chunksGo c (rest.length + 1) (x :: rest)
      = ((x :: rest).take c) :: chunksGo c rest.length ((x :: rest).drop c) from rfl]
  refine congrArg _ ?_
  refine chunksGo_fuel_irrel c hc rest.length ((x :: rest).drop c).length
    ((x :: rest).drop c) ?_ (Nat.le_refl _)
  have hd : ((x :: rest).drop c).length = (x :: rest).length - c :=
    List.length_drop c (x :: rest)
  have hl : (x :: rest).length = rest.length + 1 := by simp
  omega

/-- One step of the ceiling-division recurrence for the batch count. -/
theorem ceil_div_step (n c : Nat) (hc : 1 ≤ c) (hn : 1 ≤ n) :
    (n - c + c - 1) / c + 1 = (n + c - 1) / c := by
  have hL : n + c - 1 = (n - 1) + c := by omega
  rw [hL, Nat.add_div_right _ (by omega)]
  rcases le_or_lt n c with h | h
  · have h1 : n - c = 0 := by omega
    rw [h1]
    have h2 : (0 + c - 1) / c = 0 := Nat.div_eq_of_lt (by omega)
    have h3 : (n - 1) / c = 0 := Nat.div_eq_of_lt (by omega)
    omega
  · have h1 : n - c + c - 1 = (n - 1 - c) + c := by omega
    rw [h1, Nat.add_div_right _ (by omega)]
    have h2 : n - 1 - c + c = n - 1 := by omega
    have h3 : (n - 1) / c = (n - 1 - c) / c + 1 := by
      conv_lhs => rw [← h2]
      rw [Nat.add_div_right _ (by omega)]
    omega

/-- The number of batches is the ceiling of `length / c`. -/
theorem chunksGo_length (c : Nat) (hc : 1 ≤ c) {α : Type _} :
    ∀ (fuel : Nat) (xs : List α), xs.length ≤ fuel →
      (chunksGo c fuel xs).length = (xs.length + c - 1) / c
  | 0, xs, h => by
    have hx : xs = [] := List.length_eq_zero.mp (by omega)
    subst hx
    show (0 : Nat) = (0 + c - 1) / c
    rw [Nat.div_eq_of_lt (by omega)]
  | fuel + 1, [], _ => by
    show (0 : Nat) = (0 + c - 1) / c
    rw [Nat.div_eq_of_lt (by omega)]
  | fuel + 1, x :: rest, h => by
    show (chunksGo c fuel ((x :: rest).drop c)).length + 1 = ((x :: rest).length + c - 1) / c
    have hd : ((x :: rest).drop c).length = (x :: rest).length - c :=
      List.length_drop c (x :: rest)
    have hl : (x :: rest).length = rest.length + 1 := by simp
    rw [chunksGo_length c hc fuel ((x :: rest).drop c) (by omega)]
    rw [hd]
    exact ceil_div_step (x :: rest).length c hc (by omega)

/-- The batches concatenate back to the original list. -/
theorem chunksGo_flatten (c : Nat) (hc : 1 ≤ c) {α : Type _} :
    ∀ (fuel : Nat) (xs : List α), xs.length ≤ fuel → (chunksGo c fuel xs).flatten = xs
  | 0, xs, h => by
    have hx : xs = [] := List.length_eq_zero.mp (by omega)
    subst hx
    rfl
  | fuel + 1, [], _ => rfl
  | fuel + 1, x :: rest, h => by
    show ((x :: rest).take c) ++ (chunksGo c fuel ((x :: rest).drop c)).flatten = x :: rest
    have hd : ((x :: rest).drop c).length = (x :: rest).length - c :=
      List.length_drop c (x :: rest)
    have hl : (x :: rest).length = rest.length + 1 := by simp
    rw [chunksGo_flatten c hc fuel ((x :: rest).drop c) (by omega)]
    exact List.take_append_drop c (x :: rest)

/-- Each batch is non-empty and no larger than the batch size. -/
theorem chunksGo_sizes (c : Nat) (hc : 1 ≤ c) {α : Type _} :
    ∀ (fuel : Nat) (xs : List α), xs.length ≤ fuel →
      ∀ b ∈ chunksGo c fuel xs, 0 < b.length ∧ b.length ≤ c
  | 0, xs, h => by
    have hx : xs = [] := List.length_eq_zero.mp (by omega)
    subst hx
    intro b hb
    simp [chunksGo] at hb
  | fuel + 1, [], _ => by
    intro b hb
    simp [chunksGo] at hb
  | fuel + 1, x :: rest, h => by
    intro b hb
    rw [show chunksGo c (fuel + 1) (x :: rest)
        = ((x :: rest).take c) :: chunksGo c fuel ((x :: rest).drop c) from rfl] at hb
    have hd : ((x :: rest).drop c).length = (x :: rest).length - c :=
      List.length_drop c (x :: rest)
    have hl : (x :: rest).length = rest.length + 1 := by simp
    rcases List.mem_cons.mp hb with hb | hb
    · subst hb
      constructor
      · rw [List.length_take]
        omega
      · rw [List.length_take]
        omega
    · exact chunksGo_sizes c hc fuel _ (by omega) b hb

/-- `collectBatches` on an empty task list returns the state unchanged. -/
theorem collectBatches_nil (c d fuel : Nat) (st : CollectState) :
    collectBatches c d fuel [] st = st := by
  cases fuel <;> rfl

/-- Fulfilled outcomes of a batch and of the remainder concatenate to those
of the whole list. -/
theorem toOption_take_drop (c : Nat) (xs : List SettledResult) :
    ((xs.take c).filterMap Except.toOption) ++ ((xs.drop c).filterMap Except.toOption)
      = xs.filterMap Except.toOption := by
  conv_rhs => rw [show xs = xs.take c ++ xs.drop c from (List.take_append_drop c xs).symm]
  rw [List.filterMap_append]

/-- Article flattening splits the same way. -/
theorem articles_take_drop (c : Nat) (xs : List SettledResult) :
    (((xs.take c).filterMap Except.toOption).map (fun r => r.articles)).flatten
      ++ (((xs.drop c).filterMap Except.toOption).map (fun r => r.articles)).flatten
    = ((xs.filterMap Except.toOption).map (fun r => r.articles)).flatten := by
  rw [← toOption_take_drop c xs, List.map_append, List.flatten_append]

/-- Error tallies split the same way. -/
theorem settledErrors_take_drop (c : Nat) (xs : List SettledResult) :
    ((xs.take c).map settledErrors).sum + ((xs.drop c).map settledErrors).sum
      = (xs.map settledErrors).sum := by
  conv_rhs => rw [show xs = xs.take c ++ xs.drop c from (List.take_append_drop c xs).symm]
  rw [List.map_append, List.sum_append]

/-- A leading sleep plus the remaining sleeps form the full sleep list. -/
theorem singleton_append_replicate (d L : Nat) (hL : 1 ≤ L) :
    [d] ++ List.replicate (L - 1) d = List.replicate L d := by
  conv_rhs => rw [show L = (L - 1) + 1 from by omega]
  rw [List.replicate_succ]
  rfl

/-- The batch loop of `collectAll`: aggregation is the concatenation of the
fulfilled outcomes (and their articles) in task order, the error tally sums
fulfilled error counts plus one per rejected task, and one
`delayBetweenRequests` sleep is performed per batch boundary — that is,
`(number of batches) - 1` sleeps in total. -/
theorem collectBatches_spec (c d : Nat) (hc : 1 ≤ c) :
    ∀ (fuel : Nat) (xs : List SettledResult) (st : CollectState),
      xs.length ≤ fuel →
      collectBatches c d fuel xs st
        = { allArticles := st.allArticles
              ++ ((xs.filterMap Except.toOption).map (fun r => r.articles)).flatten
            results := st.results ++ xs.filterMap Except.toOption
            totalErrors := st.totalErrors + (xs.map settledErrors).sum
            delays := st.delays ++ List.replicate ((chunks c xs).length - 1) d }
  | 0, xs, st, h => by
    have hx : xs = [] := List.length_eq_zero.mp (by omega)
    subst hx
    simp [collectBatches, chunks, chunksGo]
  | fuel + 1, [], st, _ => by
    simp [collectBatches, chunks, chunksGo]
  | fuel + 1, x :: rest, st, h => by
    have hd : ((x :: rest).drop c).length = (x :: rest).length - c :=
      List.length_drop c (x :: rest)
    have hl : (x :: rest).length = rest.length + 1 := by simp
    rw [show collectBatches c d (fuel + 1) (x :: rest) st
        = collectBatches c d fuel ((x :: rest).drop c)
            (if ((x :: rest).drop c).isEmpty then settleBatch st ((x :: rest).take c)
             else { settleBatch st ((x :: rest).take c) with
                      delays := (settleBatch st ((x :: rest).take c)).delays ++ [d] })
        from rfl]
    cases hrem : ((x :: rest).drop c).isEmpty with
    | true =>
      have hnil : (x :: rest).drop c = [] := by simpa using hrem
      have htake : (x :: rest).take c = x :: rest := by
        have h2 := List.take_append_drop c (x :: rest)
        rw [hnil, List.append_nil] at h2
        exact h2
      rw [if_pos rfl, hnil, collectBatches_nil, settleBatch_spec, htake]
      have hch : chunks c (x :: rest) = [x :: rest] := by
        rw [chunks_cons c hc, htake, hnil]
        rfl
      rw [hch]
      simp
    | false =>
      have hne : (x :: rest).drop c ≠ [] := by
        intro hcontra
        rw [hcontra] at hrem
        simp at hrem
      rw [if_neg (by decide), collectBatches_spec c d hc fuel ((x :: rest).drop c) _ (by omega),
          settleBatch_spec]
      have hLd : 1 ≤ (chunks c ((x :: rest).drop c)).length := by
        obtain ⟨y, ys, hys⟩ := List.exists_cons_of_ne_nil hne
        rw [hys, chunks_cons c hc]
        simp
      have hcc : (chunks c (x :: rest)).length
          = (chunks c ((x :: rest).drop c)).length + 1 := by
        rw [chunks_cons c hc]
        simp
      dsimp only
      simp only [CollectState.mk.injEq]
      refine ⟨?_, ?_, ?_, ?_⟩
      · rw [List.append_assoc]
        exact congrArg _ (articles_take_drop c (x :: rest))
      · rw [List.append_assoc]
        exact congrArg _ (toOption_take_drop c (x :: rest))
      · rw [Nat.add_assoc]
        exact congrArg _ (settledErrors_take_drop c (x :: rest))
      · rw [List.append_assoc, hcc, Nat.add_sub_cancel]
        exact congrArg _ (singleton_append_replicate d _ hLd)

/-- C5: for every scraper list and maxConcurrent C ≥ 1, `collectAll`
partitions the scrapers into ceil(S/C) consecutive batches of size ≤ C
(processed strictly one after the other in the embedding's sequential batch
loop), sleeps `delayBetweenRequests` between consecutive batches, skips the
trailing sleep, and so sleeps `delayBetweenRequests × (ceil(S/C) - 1)` in
total. -/
theorem collectAll_batching
    (tasks : List SettledResult) (c d : Nat) (hc : 1 ≤ c) :
    (chunks c tasks).length = (tasks.length + c - 1) / c ∧
    (chunks c tasks).flatten = tasks ∧
    (∀ b ∈ chunks c tasks, 0 < b.length ∧ b.length ≤ c) ∧
    (collectAll tasks c d).delays = List.replicate ((chunks c tasks).length - 1) d ∧
    (collectAll tasks c d).delays.sum = d * ((chunks c tasks).length - 1) := by
  have hst := collectBatches_spec c d hc tasks.length tasks ⟨[], [], 0, []⟩ (Nat.le_refl _)
  have hdel : (collectAll tasks c d).delays
      = List.replicate ((chunks c tasks).length - 1) d := by
    show (collectBatches c d tasks.length tasks ⟨[], [], 0, []⟩).delays = _
    rw [hst]
    rfl
  refine ⟨chunksGo_length c hc tasks.length tasks (Nat.le_refl _),
          chunksGo_flatten c hc tasks.length tasks (Nat.le_refl _),
          chunksGo_sizes c hc tasks.length tasks (Nat.le_refl _), hdel, ?_⟩
  rw [hdel, List.sum_replicate, smul_eq_mul, Nat.mul_comm]

/-- Witness for C5: four fulfilled tasks, maxConcurrent 3 — two batches,
one inter-batch sleep of 1000 ms. -/
theorem collectAll_batching_witness :
    (1 : Nat) ≤ 3 ∧
    (chunks 3 tasks4).length = (tasks4.length + 3 - 1) / 3 ∧
    (collectAll tasks4 3 1000).delays.sum = 1000 * ((chunks 3 tasks4).length - 1) := by
  have h := collectAll_batching tasks4 3 1000 (by decide)
  exact ⟨by decide, h.1, h.2.2.2.2⟩

/-- Fulfilled tasks settle back to their outcomes, in order. -/
theorem filterMap_toOption_map_ok (outs : List ScraperResult) :
    (outs.map (Except.ok : ScraperResult → SettledResult)).filterMap Except.toOption
      = outs := by
  induction outs with
  | nil => rfl
  | cons a l ih =>
    show a :: (l.map (Except.ok : ScraperResult → SettledResult)).filterMap Except.toOption
        = a :: l
    rw [ih]

/-- C6: over any list of fulfilled scraper outcomes, the report's
`totalArticles` is the sum of `articles.length` over the per-scraper
outcomes, `totalErrors` is the sum of per-outcome error counts, and the
aggregated article list is the concatenation of the per-outcome article
lists in batch order and, within a batch, in task declaration order (the
embedding settles tasks in declaration order, as `Promise.allSettled`
reports them). -/
theorem collectAll_aggregation
    (outs : List ScraperResult) (c d : Nat) (hc : 1 ≤ c) :
    (collectAll (outs.map Except.ok) c d).results = outs ∧
    (collectAll (outs.map Except.ok) c d).allArticles
      = (outs.map (fun r => r.articles)).flatten ∧
    (collectAll (outs.map Except.ok) c d).totalArticles
      = (outs.map (fun r => r.articles.length)).sum ∧
    (collectAll (outs.map Except.ok) c d).totalErrors
      = (outs.map (fun r => r.errors.length)).sum := by
  have hst := collectBatches_spec c d hc (outs.map Except.ok).length (outs.map Except.ok)
    ⟨[], [], 0, []⟩ (Nat.le_refl _)
  have hfm := filterMap_toOption_map_ok outs
  have hres : (collectAll (outs.map Except.ok) c d).results = outs := by
    show (collectBatches c d (outs.map Except.ok).length (outs.map Except.ok)
      ⟨[], [], 0, []⟩).results = outs
    rw [hst]
    simp [hfm]
  have hart : (collectAll (outs.map Except.ok) c d).allArticles
      = (outs.map (fun r => r.articles)).flatten := by
    show (collectBatches c d (outs.map Except.ok).length (outs.map Except.ok)
      ⟨[], [], 0, []⟩).allArticles = _
    rw [hst]
    simp [hfm]
  have herr : (collectAll (outs.map Except.ok) c d).totalErrors
      = (outs.map (fun r => r.errors.length)).sum := by
    show (collectBatches c d (outs.map Except.ok).length (outs.map Except.ok)
      ⟨[], [], 0, []⟩).totalErrors = _
    rw [hst]
    have h3 : (outs.map Except.ok).map settledErrors
        = outs.map (fun r => r.errors.length) := by
      rw [List.map_map]
      rfl
    simp [h3]
  refine ⟨hres, hart, ?_, herr⟩
  show (collectBatches c d (outs.map Except.ok).length (outs.map Except.ok)
    ⟨[], [], 0, []⟩).allArticles.length = _
  rw [hst]
  simp [hfm, List.length_flatten, List.map_map]
  rfl

/-- Witness for C6: two fulfilled outcomes, maxConcurrent 2. -/
theorem collectAll_aggregation_witness :
    (1 : Nat) ≤ 2 ∧
    (collectAll ([sampleOutcome, ⟨[], 0, [], 3⟩].map Except.ok) 2 500).totalArticles
      = ([sampleOutcome, ⟨[], 0, [], 3⟩].map (fun r => r.articles.length)).sum ∧
    (collectAll ([sampleOutcome, ⟨[], 0, [], 3⟩].map Except.ok) 2 500).totalErrors
      = ([sampleOutcome, ⟨[], 0, [], 3⟩].map (fun r => r.errors.length)).sum := by
  have h := collectAll_aggregation [sampleOutcome, ⟨[], 0, [], 3⟩] 2 500 (by decide)
  exact ⟨by decide, h.2.2.1, h.2.2.2⟩

/-- `scrape` when the browser launch fails: one error string, no articles,
returned as a normal value. -/
theorem scrape_init_error (env : ScrapeEnv) (s : SiteScraper) (e : Option String)
    (h : env.init = .error e) :
    scrape env s
      = { articles := [], totalScraped := 0
          errors := ["Failed to scrape " ++ s.config.name ++ ": " ++ fatalMessage e]
          executionTime := env.elapsed } := by
  unfold scrape
  rw [h]

/-- `scrape` when the run loop throws: one error string, no articles,
returned as a normal value. -/
theorem scrape_run_error (env : ScrapeEnv) (s : SiteScraper) (e : Option String)
    (hinit : env.init = .ok ())
    (herr : scrapeArticles env s.config s.getPageUrl = .error e) :
    scrape env s
      = { articles := [], totalScraped := 0
          errors := ["Failed to scrape " ++ s.config.name ++ ": " ++ fatalMessage e]
          executionTime := env.elapsed } := by
  unfold scrape
  rw [hinit, herr]

/-- `scrape` on a completed run: the collected articles, no errors. -/
theorem scrape_ok (env : ScrapeEnv) (s : SiteScraper) (arts : List NewsArticle)
    (hinit : env.init = .ok ())
    (hok : scrapeArticles env s.config s.getPageUrl = .ok arts) :
    scrape env s
      = { articles := arts, totalScraped := arts.length, errors := []
          executionTime := env.elapsed } := by
  unfold scrape
  rw [hinit, hok]

/-- The retry wrapper returns any fulfilled first attempt immediately. -/
theorem runScraperWithRetry_const_ok (r : ScraperResult) (N : Nat) (hN : 1 ≤ N) :
    runScraperWithRetry (fun _ => .ok r) N = ⟨r, 1, []⟩ := by
  obtain ⟨m, rfl⟩ : ∃ m, N = m + 1 := ⟨N - 1, by omega⟩
  show retryLoop (m + 1) ((List.range' 1 (m + 1)).map fun _ => .ok r) 1 none = _
  rw [List.range'_succ]
  rfl

/-- C1 counterexample: with a failing browser launch and retryAttempts 3,
`scrape` catches the failure into the outcome's error list and returns that
outcome normally, so the retry wrapper makes exactly one attempt and
returns the failed outcome as final — it is not re-attempted although
attempts remain. -/
theorem fatal_failure_not_retried_counterexample :
    (scrape envInitFail bbcScraper).errors
      = ["Failed to scrape BBC: browser launch failed"] ∧
    runScraperWithRetry (fun _ => .ok (scrape envInitFail bbcScraper)) 3
      = ⟨scrape envInitFail bbcScraper, 1, []⟩ ∧
    (runScraperWithRetry (fun _ => .ok (scrape envInitFail bbcScraper)) 3).attempts = 1 :=
  ⟨rfl, rfl, rfl⟩

/-- C1 amended: a fatal failure (browser/session launch failure or an
exception out of the run loop) is caught and recorded as exactly one error
string in that scraper's outcome; but it does not trigger the retry
wrapper — `scrape` returns the error-bearing outcome normally, so the
wrapper accepts it on the first attempt and returns the failed outcome as
final (a retry would happen only if `scrape` itself threw, which its catch
prevents). -/
theorem fatal_failure_caught_once_no_retry
    (env : ScrapeEnv) (s : SiteScraper) (e : Option String) (N : Nat) (hN : 1 ≤ N)
    (hfatal : env.init = .error e ∨
      (env.init = .ok () ∧ scrapeArticles env s.config s.getPageUrl = .error e)) :
    (scrape env s).errors
      = ["Failed to scrape " ++ s.config.name ++ ": " ++ fatalMessage e] ∧
    (scrape env s).articles = [] ∧
    runScraperWithRetry (fun _ => .ok (scrape env s)) N = ⟨scrape env s, 1, []⟩ := by
  refine ⟨?_, ?_, runScraperWithRetry_const_ok _ N hN⟩
  · rcases hfatal with h | ⟨h1, h2⟩
    · rw [scrape_init_error env s e h]
    · rw [scrape_run_error env s e h1 h2]
  · rcases hfatal with h | ⟨h1, h2⟩
    · rw [scrape_init_error env s e h]
    · rw [scrape_run_error env s e h1 h2]

/-- Witness for C1's amended claim at the failing-launch fixture. -/
theorem fatal_failure_caught_once_no_retry_witness :
    envInitFail.init = .error (some "browser launch failed") ∧
    (1 : Nat) ≤ 3 ∧
    runScraperWithRetry (fun _ => .ok (scrape envInitFail bbcScraper)) 3
      = ⟨scrape envInitFail bbcScraper, 1, []⟩ :=
  ⟨rfl, by decide,
   (fatal_failure_caught_once_no_retry envInitFail bbcScraper
     (some "browser launch failed") 3 (by decide) (Or.inl rfl)).2.2⟩

/-- C2 counterexample: page 1 of this run yields one article, then the
page-2 listing navigation fails; the outcome records the single top-level
error but contains NO articles — the article collected before the failure
is not returned, contrary to the claim. -/
theorem mid_run_fatal_loses_collected_articles_counterexample :
    ((extractArticleLinks pagedConfig listingDom).filterMap
        (scrapeArticle envPage2Fails pagedConfig)).length = 1 ∧
    scrapeArticles envPage2Fails pagedConfig pagedScraper.getPageUrl
      = .error (some "net::ERR_CONNECTION_REFUSED") ∧
    (scrape envPage2Fails pagedScraper).errors.length = 1 ∧
    (scrape envPage2Fails pagedScraper).articles = [] :=
  ⟨by decide, rfl, by decide, by decide⟩

/-- C2 amended: a fatal error during the run loop aborts the remaining
pages and records exactly one top-level error, but the returned outcome
contains NO articles: the partial article list is local to the aborted
`scrapeArticles` call and is discarded, not returned. -/
theorem mid_run_fatal_aborts_with_empty_articles
    (env : ScrapeEnv) (s : SiteScraper) (e : Option String)
    (hinit : env.init = .ok ())
    (herr : scrapeArticles env s.config s.getPageUrl = .error e) :
    scrape env s
      = { articles := [], totalScraped := 0
          errors := ["Failed to scrape " ++ s.config.name ++ ": " ++ fatalMessage e]
          executionTime := env.elapsed } :=
  scrape_run_error env s e hinit herr

/-- Witness for C2's amended claim at the page-2-failure fixture. -/
theorem mid_run_fatal_aborts_with_empty_articles_witness :
    envPage2Fails.init = .ok () ∧
    scrape envPage2Fails pagedScraper
      = { articles := [], totalScraped := 0
          errors := ["Failed to scrape Test: net::ERR_CONNECTION_REFUSED"]
          executionTime := 42 } := by
  refine ⟨rfl, ?_⟩
  have h := mid_run_fatal_aborts_with_empty_articles envPage2Fails pagedScraper
    (some "net::ERR_CONNECTION_REFUSED") rfl rfl
  rw [h]
  decide

/-- C7: every extracted link comes from a matching element's non-empty
href — passed through unchanged when it starts as an absolute (`http…`)
URL, resolved against the owning config's base URL otherwise — and, when
the base URL is absolute, every extracted link is absolute; an Article is
emitted only when the extracted trimmed title is non-empty, and it carries
exactly the processed link as its `url`; an empty or missing title yields
no Article, and a completed run carries no error entries at all, so a
title skip adds no error entry. -/
theorem article_emission_title_and_absolute_url
    (env : ScrapeEnv) (conf : ScraperConfig) (dom : Html)
    (hbase : strStartsWith conf.baseUrl "http" = true) :
    (∀ url ∈ extractArticleLinks conf dom,
      ∃ el ∈ dom conf.selectors.articleLinks, ∃ href, el.href = some href ∧ href ≠ "" ∧
        url = (if strStartsWith href "http" then href else urlHref href conf.baseUrl)) ∧
    (∀ url ∈ extractArticleLinks conf dom, strStartsWith url "http" = true) ∧
    (∀ url a, scrapeArticle env conf url = some a → a.url = url ∧ a.title ≠ "") ∧
    (∀ url dom2, env.nav url = .ok dom2 →
      strTrim (((dom2 conf.selectors.title).head?.map (fun el => el.text)).getD "") = "" →
      scrapeArticle env conf url = none) ∧
    (∀ (gp : Nat → String) (arts : List NewsArticle), env.init = .ok () →
      scrapeArticles env conf gp = .ok arts →
      (scrape env ⟨conf, gp⟩).errors = []) := by
  have hlinks : ∀ url ∈ extractArticleLinks conf dom,
      ∃ el ∈ dom conf.selectors.articleLinks, ∃ href, el.href = some href ∧ href ≠ "" ∧
        url = (if strStartsWith href "http" then href else urlHref href conf.baseUrl) := by
    intro url hu
    rw [extractArticleLinks, List.mem_filterMap] at hu
    obtain ⟨el, hel, hf⟩ := hu
    refine ⟨el, hel, ?_⟩
    cases hh : el.href with
    | none =>
      rw [hh] at hf
      simp at hf
    | some href =>
      rw [hh] at hf
      by_cases he : href = ""
      · rw [he] at hf
        simp at hf
      · rw [show (match some href with
            | none => (none : Option String)
            | some href =>
              if href = "" then none
              else some (if strStartsWith href "http" then href
                         else urlHref href conf.baseUrl))
            = if href = "" then none
              else some (if strStartsWith href "http" then href
                         else urlHref href conf.baseUrl) from rfl, if_neg he] at hf
        exact ⟨href, rfl, he, (Option.some.inj hf).symm⟩
  have habs : ∀ url ∈ extractArticleLinks conf dom, strStartsWith url "http" = true := by
    intro url hu
    obtain ⟨el, hel, href, hh, hne, heq⟩ := hlinks url hu
    by_cases hsw : strStartsWith href "http" = true
    · rw [heq, if_pos hsw]
      exact hsw
    · rw [heq, if_neg hsw]
      unfold urlHref
      by_cases hslash : strStartsWith href "/" = true
      · rw [if_pos hslash]
        exact strStartsWith_append_of conf.baseUrl href "http" hbase
      · rw [if_neg hslash]
        exact strStartsWith_append_of (conf.baseUrl ++ "/") href "http"
          (strStartsWith_append_of conf.baseUrl "/" "http" hbase)
  refine ⟨hlinks, habs, ?_, ?_, ?_⟩
  · intro url a ha
    unfold scrapeArticle at ha
    cases hn : env.nav url with
    | error e =>
      rw [hn] at ha
      simp at ha
    | ok dom2 =>
      rw [hn] at ha
      dsimp only at ha
      cases ht : extractText dom2 (some conf.selectors.title) with
      | none =>
        rw [ht] at ha
        simp at ha
      | some title =>
        rw [ht] at ha
        dsimp only at ha
        by_cases he : title = ""
        · rw [he] at ha
          simp at ha
        · rw [if_neg he] at ha
          rw [← Option.some.inj ha]
          exact ⟨rfl, he⟩
  · intro url dom2 hn htitle
    unfold scrapeArticle
    rw [hn]
    by_cases hts : conf.selectors.title = ""
    · simp [extractText, hts]
    · simp [extractText, hts, htitle]
  · intro gp arts hinit hok
    rw [scrape_ok env ⟨conf, gp⟩ arts hinit hok]

/-- Witness for C7 at the BBC config: the relative link `/news/article-1`
resolves against the BBC base URL to an absolute URL. -/
theorem article_emission_title_and_absolute_url_witness :
    strStartsWith bbcConfig.baseUrl "http" = true ∧
    strStartsWith "https://www.bbc.com/news/article-1" "http" = true := by
  refine ⟨by decide, ?_⟩
  exact (article_emission_title_and_absolute_url envBbcTest bbcConfig bbcListingDom
    (by decide)).2.1 "https://www.bbc.com/news/article-1" (by decide)

/-- C8 counterexample: a listing page yields the same link twice; both
occurrences are visited and the outcome contains two Articles with the
same url, so urls are not unique within one scrape. -/
theorem duplicate_links_duplicate_urls_counterexample :
    (scrape envDup dupScraper).articles.length = 2 ∧
    ((scrape envDup dupScraper).articles.map (fun a => a.url))
      = ["https://example.com/story", "https://example.com/story"] ∧
    ¬ ((scrape envDup dupScraper).articles.map (fun a => a.url)).Nodup :=
  ⟨by decide, by decide, by decide⟩

/-- C8 amended: links are visited once per occurrence, in order, with no
deduplication anywhere: on a single-page run the emitted articles are
exactly the per-occurrence results of visiting the extracted link list, so
a link extracted twice is visited twice and the outcome's urls need not be
unique. -/
theorem links_visited_per_occurrence_no_dedup
    (env : ScrapeEnv) (conf : ScraperConfig) (gp : Nat → String) (dom : Html)
    (hpag : conf.pagination = none)
    (hnav : env.nav (gp 1) = .ok dom) :
    scrapeArticles env conf gp
      = .ok ((extractArticleLinks conf dom).filterMap (scrapeArticle env conf)) := by
  have hmp : maxPagesOf conf = 1 := by
    rw [maxPagesOf, hpag]
  have hpe : paginationEnabled conf = false := by
    rw [paginationEnabled, hpag]
  unfold scrapeArticles
  rw [hmp]
  unfold scrapePagesGo
  rw [hnav]
  dsimp only
  rw [hpe]
  simp [scrapePagesGo]

/-- Witness for C8's amended claim at the duplicate-link fixture. -/
theorem links_visited_per_occurrence_no_dedup_witness :
    dupConfig.pagination = none ∧
    scrapeArticles envDup dupConfig dupScraper.getPageUrl
      = .ok ((extractArticleLinks dupConfig dupDom).filterMap
          (scrapeArticle envDup dupConfig)) :=
  ⟨rfl,
   links_visited_per_occurrence_no_dedup envDup dupConfig dupScraper.getPageUrl dupDom
     rfl rfl⟩

/-- C9 counterexample: one of two links fails navigation; the run continues
and returns the other link's article, but the outcome's error list is
empty — no per-article error string is recorded, contrary to the claim. -/
theorem per_link_failure_not_recorded_counterexample :
    scrapeArticle envOneBadLink mixedScraper.config "https://example.com/bad" = none ∧
    (scrape envOneBadLink mixedScraper).articles.length = 1 ∧
    (scrape envOneBadLink mixedScraper).errors = [] :=
  ⟨by decide, by decide, by decide⟩

/-- C9 amended: a navigation failure for one link is caught inside
`scrapeArticle` and yields no Article; processing continues with the next
link, so no other article of the batch is lost; but the failure is not
recorded in the outcome — it is only logged, and a completed run's outcome
has an empty error list regardless of per-link failures. -/
theorem per_link_failure_skipped_silently
    (env : ScrapeEnv) (conf : ScraperConfig) :
    (∀ url e, env.nav url = .error e → scrapeArticle env conf url = none) ∧
    (∀ (pre post : List String) (bad : String), scrapeArticle env conf bad = none →
      (pre ++ bad :: post).filterMap (scrapeArticle env conf)
        = pre.filterMap (scrapeArticle env conf)
          ++ post.filterMap (scrapeArticle env conf)) ∧
    (∀ (gp : Nat → String) (arts : List NewsArticle), env.init = .ok () →
      scrapeArticles env conf gp = .ok arts →
      scrape env ⟨conf, gp⟩
        = { articles := arts, totalScraped := arts.length, errors := []
            executionTime := env.elapsed }) := by
  refine ⟨?_, ?_, ?_⟩
  · intro url e hn
    unfold scrapeArticle
    rw [hn]
  · intro pre post bad hbad
    rw [List.filterMap_append, List.filterMap_cons, hbad]
  · intro gp arts hinit hok
    exact scrape_ok env ⟨conf, gp⟩ arts hinit hok

/-- Witness for C9's amended claim at the one-bad-link fixture. -/
theorem per_link_failure_skipped_silently_witness :
    envOneBadLink.nav "https://example.com/bad" = .error (some "timeout") ∧
    scrapeArticle envOneBadLink mixedScraper.config "https://example.com/bad" = none :=
  ⟨rfl,
   (per_link_failure_skipped_silently envOneBadLink mixedScraper.config).1
     "https://example.com/bad" (some "timeout") rfl⟩

/-- C10: a falsy option value is replaced by the default exactly as an
absent one: maxConcurrent 0, retryAttempts 0 and delayBetweenRequests 0
behave as if absent, yielding 3, 3 and 1000, and outputDir "" yields
"./data"; in particular retryAttempts 0 still produces up to 3 attempts
per scraper rather than zero. -/
theorem falsy_options_defaulted :
    resolveOptions
        { outputDir := some "", maxConcurrent := some 0, retryAttempts := some 0,
          delayBetweenRequests := some 0, includeContent := none }
      = resolveOptions {} ∧
    resolveOptions {}
      = { outputDir := "./data", maxConcurrent := 3, retryAttempts := 3,
          delayBetweenRequests := 1000, includeContent := false } ∧
    (∀ (attempt : Nat → AttemptResult) (msgs : Nat → Option String),
      (∀ i, 1 ≤ i → i ≤ 3 → attempt i = .thrown (msgs i)) →
      (runScraperWithRetry attempt
        (resolveOptions { retryAttempts := some 0 }).retryAttempts).attempts = 3) := by
  refine ⟨by decide, by decide, ?_⟩
  intro attempt msgs hfail
  have h3 : (resolveOptions { retryAttempts := some 0 }).retryAttempts = 3 := by decide
  rw [h3]
  rw [runScraperWithRetry_allfail 3 attempt msgs (by decide) hfail]

/-- Witness for C10: an always-throwing scraper under retryAttempts 0 still
gets 3 attempts. -/
theorem falsy_options_defaulted_witness :
    (runScraperWithRetry (fun _ => .thrown none)
        (resolveOptions { retryAttempts := some 0 }).retryAttempts).attempts = 3 :=
  falsy_options_defaulted.2.2 (fun _ => .thrown none) (fun _ => none)
    (fun _ _ _ => rfl)
